import Mathlib

set_option maxRecDepth 100000

/-!
Verification of the notebook
`examples/braket_features/Getting_Started_with_OpenQASM_on_Braket.ipynb`.

The notebook is straight-line Python: every code cell is a sequence of
simple statements (string-literal assignments, external SDK calls,
prints/displays, one file write).  We embed the flattened sequence of
statements as a concrete list `notebook : List NbStmt`, the embedded
OpenQASM program texts as the exact string literals from the source, and
prove the claimed structural, ordering and payload properties over that
list.  OpenQASM program texts are additionally analysed by small
character-level scanners (qubit declarations / qubit references /
instruction extraction) so that claims about the *contents* of the
payload strings can be settled.
-/

namespace OpenQASMNotebook

/-! ## The program-text string literals, verbatim from the notebook -/

/-- Cell `74f36023`: the Bell-state OpenQASM program text `bell_qasm`. -/
def bell_qasm : String :=
  "\nOPENQASM 3;\n\nqubit[2] q;\nbit[2] c;\n\nh q[0];\ncnot q[0], q[1];\n\nc = measure q;\n"

/-- Cell `9ee3dfb9`: the noisy 3-qubit GHZ OpenQASM program text `noisy_ghz3_program`. -/
def noisy_ghz3_program : String :=
  "\n// noisy_ghz3.qasm\n// Prepare a 3 noisy qubit GHZ state\nOPENQASM 3;\n\nqubit[3] q;\nbit[3] c;\n\nh q[0];\n#pragma braket noise depolarizing(0.1) q[0]\ncnot q[0], q[1];\n#pragma braket noise depolarizing(0.1) q[0]\n#pragma braket noise depolarizing(0.1) q[1]\ncnot q[1], q[2];\n#pragma braket noise depolarizing(0.1) q[0]\n#pragma braket noise depolarizing(0.1) q[1]\n\nc = measure q;\n"

/-- Cell `26366ddd`: the Kraus-noise OpenQASM program text
`noisy_program_with_kraus_operators`. -/
def noisy_program_with_kraus_operators : String :=
  "\n// noisy_program_with_kraus_operators\nOPENQASM 3;\n\nqubit[2] q;\nbit[2] c;\n\nh q[0];\n#pragma braket noise kraus([[0.9486833, 0], [0, 0.9486833]], [[0, 0.31622777], [0.31622777, 0]]) q[0]\ncnot q[1], q[2];\n\nc = measure q;\n"

/-- Cell `d1f97f3f`: the arbitrary-unitary OpenQASM program text `program_with_unitary`. -/
def program_with_unitary : String :=
  "\n// noisy_program_with_kraus_operators\nOPENQASM 3;\n\nqubit q;\nbit c;\n\n#pragma braket unitary([[0, -1im], [1im, 0]]) q\nc = measure q;\n"

/-- Cell `3d211790`: the physical-qubit GHZ OpenQASM program text
`ghz_program_with_physical_qubits`. -/
def ghz_program_with_physical_qubits : String :=
  "\n// Prepare a GHZ state\nOPENQASM 3;\n\nbit[3] ro;\nh $0;\ncnot $0, $1;\ncnot $1, $2;\nro[0] = measure $0;\nro[1] = measure $1;\nro[2] = measure $2;\n"

/-- Cell `0ca70478`: the verbatim-box OpenQASM program text `program_with_verbatim_box`. -/
def program_with_verbatim_box : String :=
  "\nOPENQASM 3;\n\nbit[2] ro;\n#pragma braket verbatim\nbox\x7b\n rx(3.141592653589793) $0;\n rx(3.141592653589793) $0;\n cz $0, $1;\n\x7d\nro[0] = measure $0;\nro[1] = measure $1;\n"

/-- Cell `0f4a78a9`: the result-type-request OpenQASM program text `bell_with_result_type`. -/
def bell_with_result_type : String :=
  "\nOPENQASM 3;\n\nqubit[2] q;\n\n#pragma braket result expectation x(q[0]) @ z(q[1])\n#pragma braket result amplitude \"00\", \"11\"\nh q[0];\ncnot q[0], q[1];\n"

/-- Cell `aa1174eb`: the non-simultaneously-measurable result-types OpenQASM program
text `program_with_non_simultaneously_measurable_result_types`. -/
def program_with_non_simultaneously_measurable_result_types : String :=
  "\nOPENQASM 3;\n\nqubit[2] q;\n\nh q[0];\ncnot q[0], q[1];\n\n#pragma braket result expectation x(q[0]) @ z(q[1])\n#pragma braket result expectation hermitian([[0, -1im], [1im, 0]]) q[0]\n"

/-! ## Character-level scanners over OpenQASM program texts -/

/-- Value of a decimal digit character. -/
def charVal (c : Char) : Nat := c.toNat - 48

/-- Boolean prefix test on character lists. -/
def isPrefixOfL : List Char → List Char → Bool
  | [], _ => true
  | _ :: _, [] => false
  | a :: as, b :: bs => a == b && isPrefixOfL as bs

/-- Boolean substring test on character lists. -/
def containsL (pat : List Char) : List Char → Bool
  | [] => isPrefixOfL pat []
  | b :: bs => isPrefixOfL pat (b :: bs) || containsL pat bs

/-- Boolean substring test on strings: `containsSub s pat` holds when `pat`
occurs contiguously in `s`. -/
def containsSub (s pat : String) : Bool :=
  containsL pat.toList s.toList

/-- Sizes `n` of qubit-register declarations `qubit[n]` occurring in an OpenQASM
program text (single-digit sizes, as in all programs of the notebook). -/
def qubitDeclSizes : List Char → List Nat
  | [] => []
  | c :: cs =>
    match c, cs with
    | 'q', 'u' :: 'b' :: 'i' :: 't' :: '[' :: d :: ']' :: _ =>
      if d.isDigit then charVal d :: qubitDeclSizes cs else qubitDeclSizes cs
    | _, _ => qubitDeclSizes cs

/-- Indices `i` of references `q[i]` to the qubit register `q` occurring in an
OpenQASM program text (single-digit indices, as in all programs of the
notebook).  The declaration `qubit[n]` itself is not matched since there the
character before `[` is `t`. -/
def qubitRefs : List Char → List Nat
  | [] => []
  | c :: cs =>
    match c, cs with
    | 'q', '[' :: d :: ']' :: _ =>
      if d.isDigit then charVal d :: qubitRefs cs else qubitRefs cs
    | _, _ => qubitRefs cs

/-! ## Instruction-level denotation of the noisy GHZ example (claim about
`noisy_ghz3_program` vs `noisy_ghz3_circ`) -/

/-- Gate / noise-channel instructions occurring in the noisy GHZ example.  The
depolarizing probability `0.1` is recorded by its integer part and its single
fractional digit (`probInt = 0`, `probFrac = 1`). -/
inductive Instr where
  | gateH (q : Nat)
  | gateCNot (control target : Nat)
  | noiseDepolarizing (probInt probFrac q : Nat)
deriving DecidableEq

/-- Instruction sequence denoted by an OpenQASM program text of the noisy GHZ
example: scans the text for `h q[i]` gates, `cnot q[i], q[j]` gates and
`depolarizing(a.b) q[i]` noise pragmas, in textual order. -/
def parseNoisyInstrs : List Char → List Instr
  | [] => []
  | c :: cs =>
    match c, cs with
    | 'h', ' ' :: 'q' :: '[' :: d :: ']' :: _ =>
      if d.isDigit then .gateH (charVal d) :: parseNoisyInstrs cs else parseNoisyInstrs cs
    | 'c', 'n' :: 'o' :: 't' :: ' ' :: 'q' :: '[' :: d1 :: ']' :: ',' :: ' ' :: 'q' :: '[' :: d2 :: ']' :: _ =>
      if d1.isDigit && d2.isDigit then
        .gateCNot (charVal d1) (charVal d2) :: parseNoisyInstrs cs
      else parseNoisyInstrs cs
    | 'd', 'e' :: 'p' :: 'o' :: 'l' :: 'a' :: 'r' :: 'i' :: 'z' :: 'i' :: 'n' :: 'g' :: '(' :: a :: '.' :: b :: ')' :: ' ' :: 'q' :: '[' :: d :: ']' :: _ =>
      if a.isDigit && b.isDigit && d.isDigit then
        .noiseDepolarizing (charVal a) (charVal b) (charVal d) :: parseNoisyInstrs cs
      else parseNoisyInstrs cs
    | _, _ => parseNoisyInstrs cs

/-- Instruction sequence of the SDK circuit `noisy_ghz3_circ`, i.e. of
`Circuit().h(0).cnot(0, 1).cnot(1, 2)` after `apply_gate_noise` with
`Noise.Depolarizing(probability=0.1)`, exactly as recorded in the executed
output of cell `2755f581` of the notebook:
`[H(0), Depolarizing(0.1, 0), CNot(0, 1), Depolarizing(0.1, 0),
Depolarizing(0.1, 1), CNot(1, 2), Depolarizing(0.1, 1), Depolarizing(0.1, 2)]`. -/
def noisy_ghz3_circ_instructions : List Instr :=
  [.gateH 0,
   .noiseDepolarizing 0 1 0,
   .gateCNot 0 1,
   .noiseDepolarizing 0 1 0,
   .noiseDepolarizing 0 1 1,
   .gateCNot 1 2,
   .noiseDepolarizing 0 1 1,
   .noiseDepolarizing 0 1 2]

/-! ## The notebook as a flat sequence of statements

Every code cell of the notebook is a sequence of simple Python statements
with no nesting (the two `for` loops and the `with` block each contain a
single display / write statement and are flattened into one statement).
`NbStmt` is the statement grammar: it covers every statement form the
notebook actually uses, plus the Python constructs the claims speak about
(class definitions, `try`/`except`, `if`/`assert` validation, coroutine and
threading constructs, locks) so that their *absence* from the notebook is a
statement about this concrete list and not a vacuity of the grammar. -/

/-- Payload of a `device.run(...)` call. -/
inductive Payload where
  /-- an `OpenQASMProgram(source=v)` built inline from the program-text variable `v` -/
  | qasmSource (sourceVar : String)
  /-- a previously constructed `OpenQASMProgram` bound to variable `v` -/
  | programVar (v : String)
  /-- an SDK `Circuit` object bound to variable `v` -/
  | circuitVar (v : String)
deriving DecidableEq

/-- One flattened notebook statement. -/
inductive NbStmt where
  /-- `import m` / `from m import ...` -/
  | importMod (m : String)
  /-- `v = """..."""`: binding of a program-text string literal -/
  | assignStr (v text : String)
  /-- `program = Program(instructions=[H(target=0), CNot(control=0, target=1)])` (JAQCD) -/
  | assignJaqcd (v : String)
  /-- `v = AwsDevice(arn)` -/
  | assignDevice (v arn : String)
  /-- `v = OpenQASMProgram(source=sourceVar)` -/
  | assignOpenQASM (v sourceVar : String)
  /-- `v = Circuit().h(0).cnot(0, 1).cnot(1, 2)` -/
  | assignCircuit (v : String)
  /-- `v = Noise.Depolarizing(probability=0.1)` -/
  | assignNoise (v : String)
  /-- `circ.apply_gate_noise(noiseVar)` -/
  | applyGateNoise (circ noiseVar : String)
  /-- `v = Tracker().start()` -/
  | assignTracker (v : String)
  /-- `taskVar = devVar.run(payload, shots=n)` (`shots = none` when the keyword is omitted) -/
  | run (taskVar devVar : String) (payload : Payload) (shots : Option Nat)
  /-- `v = taskVar.result()` -/
  | assignResult (v taskVar : String)
  /-- `v = taskVar.result().field` -/
  | assignResultField (v taskVar field : String)
  /-- `v = src.field` -/
  | assignField (v src field : String)
  /-- `with open(fname, "w") as f: f.write(srcVar)` -/
  | fileWrite (fname srcVar : String)
  /-- `print(...)` referencing the variables `vs` (possibly through loops or field access) -/
  | printRef (vs : List String)
  /-- bare expression displayed by the notebook, referencing the variables `vs` -/
  | exprDisplay (vs : List String)
  /-- plotting call (e.g. `nx.draw_kamada_kawai(...)`) referencing the variables `vs` -/
  | plot (vs : List String)
  /-- a `class` definition — available in Python, never used by this notebook -/
  | classDef (v : String)
  /-- a `try`/`except` block — available in Python, never used by this notebook -/
  | tryExcept (handler : String)
  /-- an `if` statement branching on the variables `vs` — never used by this notebook -/
  | ifStmt (vs : List String)
  /-- an `assert` statement checking the variables `vs` — never used by this notebook -/
  | assertStmt (vs : List String)
  /-- a `raise` statement — never used by this notebook -/
  | raiseStmt (v : String)
  /-- an `async def` coroutine definition — never used by this notebook -/
  | asyncDef (v : String)
  /-- a thread spawn (`threading.Thread(...).start()`) — never used by this notebook -/
  | threadSpawn (v : String)
  /-- a lock acquisition — never used by this notebook -/
  | lockAcquire (v : String)
deriving DecidableEq

/-- The flattened statement sequence of the notebook
`Getting_Started_with_OpenQASM_on_Braket.ipynb`, code cells in order. -/
def notebook : List NbStmt :=
  [ -- cell 531458bc
   .importMod "braket.tracking",
   .assignTracker "t",
   -- cell 74f36023
   .assignStr "bell_qasm" bell_qasm,
   -- cell 8fb7142f
   .importMod "braket.ir.jaqcd",
   .assignJaqcd "program",
   .printRef ["program"],
   -- cell 5044bf8c
   .importMod "boto3",
   .importMod "json",
   .importMod "braket.aws",
   -- cell 13f35368
   .importMod "braket.ir.openqasm",
   .assignDevice "sv1" "arn:aws:braket:::device/quantum-simulator/amazon/sv1",
   .assignOpenQASM "bell_program" "bell_qasm",
   .run "bell_task" "sv1" (.programVar "bell_program") (some 100),
   -- cell 1cc596be
   .fileWrite "bell.qasm" "bell_qasm",
   -- cells a7951803, 05e224e3, f123f0ab
   .exprDisplay ["sv1"],
   .exprDisplay ["sv1"],
   .exprDisplay ["sv1"],
   -- cell 9ee3dfb9
   .assignStr "noisy_ghz3_program" noisy_ghz3_program,
   -- cell 2755f581
   .importMod "braket.circuits",
   .assignCircuit "noisy_ghz3_circ",
   .assignNoise "noise",
   .applyGateNoise "noisy_ghz3_circ" "noise",
   -- cell 138d5edd
   .assignDevice "dm1" "arn:aws:braket:::device/quantum-simulator/amazon/dm1",
   .run "noisy_ghz3_circ_task" "dm1" (.circuitVar "noisy_ghz3_circ") (some 10),
   .run "noisy_ghz3_program_task" "dm1" (.qasmSource "noisy_ghz3_program") (some 10),
   -- cell 2a21c9e7
   .assignResult "sdk_result" "noisy_ghz3_circ_task",
   .assignResult "openqasm_result" "noisy_ghz3_program_task",
   .assignField "sdk_measurement" "sdk_result" "measurement_counts",
   .assignField "openqasm_measurement" "openqasm_result" "measurement_counts",
   .printRef ["sdk_measurement"],
   .printRef ["openqasm_measurement"],
   -- cell 26366ddd
   .assignStr "noisy_program_with_kraus_operators" noisy_program_with_kraus_operators,
   -- cell d1f97f3f
   .assignStr "program_with_unitary" program_with_unitary,
   -- cell 4461b1a8
   .run "unitary_task" "dm1" (.qasmSource "program_with_unitary") (some 10),
   .assignResult "unitary_result" "unitary_task",
   .printRef ["unitary_result"],
   -- cell 3d211790
   .assignStr "ghz_program_with_physical_qubits" ghz_program_with_physical_qubits,
   -- cell 9c42efc5
   .assignDevice "aspen_m1" "arn:aws:braket:us-west-1::device/qpu/rigetti/Aspen-M-1",
   .run "ghz_program_with_physical_qubits_task" "aspen_m1"
     (.qasmSource "ghz_program_with_physical_qubits") (some 10),
   .assignResultField "measured_qubits" "ghz_program_with_physical_qubits_task" "measured_qubits",
   .printRef ["measured_qubits"],
   -- cell 0ca70478
   .assignStr "program_with_verbatim_box" program_with_verbatim_box,
   -- cell 92ab8cf7
   .printRef ["aspen_m1"],
   .printRef ["aspen_m1"],
   -- cell d5f76be2
   .importMod "networkx",
   .printRef ["aspen_m1"],
   .plot ["aspen_m1"],
   -- cell 15af3a32
   .run "verbatim_task" "aspen_m1" (.qasmSource "program_with_verbatim_box") (some 10),
   .assignResult "verbatim_result" "verbatim_task",
   .assignField "meta" "verbatim_result" "additional_metadata.rigettiMetadata",
   .printRef ["meta"],
   -- cell 7f348ffd
   .printRef ["sv1"],
   -- cell 0f4a78a9
   .assignStr "bell_with_result_type" bell_with_result_type,
   -- cell 2b7aa936
   .run "bell_result_types_task" "sv1" (.qasmSource "bell_with_result_type") (some 0),
   .assignResult "bell_result" "bell_result_types_task",
   .assignField "values" "bell_result" "values",
   .printRef ["values"],
   -- cell aa1174eb
   .assignStr "program_with_non_simultaneously_measurable_result_types"
     program_with_non_simultaneously_measurable_result_types,
   -- cell 61317ba8
   .printRef [],
   .printRef ["t"],
   .printRef [],
   .printRef ["t"]]

/-! ## Static analysis of the statement list -/

namespace NbStmt

/-- Variable bound by a statement, if any. -/
def boundVar : NbStmt → Option String
  | .assignStr v _ => some v
  | .assignJaqcd v => some v
  | .assignDevice v _ => some v
  | .assignOpenQASM v _ => some v
  | .assignCircuit v => some v
  | .assignNoise v => some v
  | .assignTracker v => some v
  | .run t _ _ _ => some t
  | .assignResult v _ => some v
  | .assignResultField v _ _ => some v
  | .assignField v _ _ => some v
  | _ => none

/-- Variables read by a statement's payload. -/
def payloadRefs : Payload → List String
  | .qasmSource sv => [sv]
  | .programVar v => [v]
  | .circuitVar v => [v]

/-- Variables a statement reads. -/
def refVars : NbStmt → List String
  | .assignOpenQASM _ sv => [sv]
  | .applyGateNoise c n => [c, n]
  | .run _ d p _ => d :: payloadRefs p
  | .assignResult _ t => [t]
  | .assignResultField _ t _ => [t]
  | .assignField _ s _ => [s]
  | .fileWrite _ sv => [sv]
  | .printRef vs => vs
  | .exprDisplay vs => vs
  | .plot vs => vs
  | .ifStmt vs => vs
  | .assertStmt vs => vs
  | _ => []

/-- Whether the statement is a `device.run(...)` submission. -/
def isRun : NbStmt → Bool
  | .run _ _ _ _ => true
  | _ => false

/-- Whether the statement is an exception-handling construct
(`try`/`except` or `raise`). -/
def isErrorHandling : NbStmt → Bool
  | .tryExcept _ => true
  | .raiseStmt _ => true
  | _ => false

/-- Whether the statement is a validation construct (`if` branch or `assert`). -/
def isValidation : NbStmt → Bool
  | .ifStmt _ => true
  | .assertStmt _ => true
  | _ => false

/-- Whether the statement is a concurrency construct (coroutine definition,
thread spawn, or lock acquisition). -/
def isConcurrencyConstruct : NbStmt → Bool
  | .asyncDef _ => true
  | .threadSpawn _ => true
  | .lockAcquire _ => true
  | _ => false

/-- Whether the statement is a class definition. -/
def isClassDef : NbStmt → Bool
  | .classDef _ => true
  | _ => false

/-- Whether the statement is a coroutine definition. -/
def isCoroutine : NbStmt → Bool
  | .asyncDef _ => true
  | _ => false

/-- Whether the statement performs an externally visible side effect: a task
submission to the cloud device, or a write to the local filesystem.  Prints,
displays and plots stay inside the notebook; property accesses are reads. -/
def isExternalSideEffect : NbStmt → Bool
  | .run _ _ _ _ => true
  | .fileWrite _ _ => true
  | _ => false

/-- Whether the statement is a usage of one of the three interfaces listed by
the spec: textual program-description input, device run/submit call, or
result-object access. -/
def isListedInterface : NbStmt → Bool
  | .assignStr _ _ => true
  | .assignOpenQASM _ _ => true
  | .run _ _ _ _ => true
  | .assignResult _ _ => true
  | .assignResultField _ _ _ => true
  | _ => false

/-- Task variable bound by a `run` statement, if any. -/
def runTask : NbStmt → Option String
  | .run t _ _ _ => some t
  | _ => none

/-- Task variable whose result the statement fetches, if any. -/
def fetchedTask : NbStmt → Option String
  | .assignResult _ t => some t
  | .assignResultField _ t _ => some t
  | _ => none

end NbStmt

/-- First program-text string literal assigned to variable `v`, if any. -/
def textOf : List NbStmt → String → Option String
  | [], _ => none
  | .assignStr w t :: rest, v => if w = v then some t else textOf rest v
  | _ :: rest, v => textOf rest v

/-- All program-text variables (variables bound by a string-literal assignment). -/
def textVars (l : List NbStmt) : List String :=
  l.filterMap fun s => match s with
    | .assignStr v _ => some v
    | _ => none

/-- Variables bound to an `OpenQASMProgram` object. -/
def openQASMProgramVars (l : List NbStmt) : List String :=
  l.filterMap fun s => match s with
    | .assignOpenQASM v _ => some v
    | _ => none

/-- Whether a run payload is an OpenQASM program text wrapped as an
`OpenQASMProgram` (either built inline from a source variable, or a variable
previously bound to an `OpenQASMProgram`). -/
def isOpenQASMPayload (l : List NbStmt) : Payload → Bool
  | .qasmSource _ => true
  | .programVar pv => (openQASMProgramVars l).contains pv
  | .circuitVar _ => false

/-- Source texts of all `OpenQASMProgram` constructions of the statement list,
in order, each resolved through `textOf`. -/
def openQASMSources (l : List NbStmt) : List (Option String) :=
  l.filterMap fun s => match s with
    | .assignOpenQASM _ sv => some (textOf l sv)
    | .run _ _ (.qasmSource sv) _ => some (textOf l sv)
    | _ => none

/-- All `(filename, source variable)` pairs of file writes in the statement list. -/
def fileWrites (l : List NbStmt) : List (String × String) :=
  l.filterMap fun s => match s with
    | .fileWrite fn sv => some (fn, sv)
    | _ => none

/-- A statement uses every program-text variable opaquely when it is one of the
pass-through forms (string-literal definition, `OpenQASMProgram` construction,
run submission, file write) or does not reference a program-text variable at
all.  No statement form of the grammar parses, slices or concatenates a
string, so any non-pass-through reference would count as an inspection. -/
def opaqueTextUse (tvs : List String) : NbStmt → Bool
  | .assignStr _ _ => true
  | .assignOpenQASM _ _ => true
  | .run _ _ _ _ => true
  | .fileWrite _ _ => true
  | s => s.refVars.all fun v => !tvs.contains v

/-- Def-before-use discipline: scanning left to right, every variable a
statement references was bound by an earlier statement. -/
def defBeforeUseAux : List String → List NbStmt → Bool
  | _, [] => true
  | env, s :: rest =>
    (s.refVars.all fun v => env.contains v) &&
      defBeforeUseAux ((s.boundVar.toList) ++ env) rest

/-- Def-before-use discipline over a whole statement list. -/
def defBeforeUse (l : List NbStmt) : Bool := defBeforeUseAux [] l

/-- Every result fetch (`task.result()`) happens after the `run` call that
bound its task variable. -/
def fetchesAfterRun : List String → List NbStmt → Bool
  | _, [] => true
  | tasks, s :: rest =>
    match s with
    | .run t _ _ _ => fetchesAfterRun (t :: tasks) rest
    | .assignResult _ t => tasks.contains t && fetchesAfterRun tasks rest
    | .assignResultField _ t _ => tasks.contains t && fetchesAfterRun tasks rest
    | _ => fetchesAfterRun tasks rest

/-- Every `run` submission happens after its payload was authored: inline
OpenQASM sources after the string-literal assignment of the source text,
program variables after the `OpenQASMProgram` construction (which itself
requires its source text to be already defined), circuit variables after the
circuit construction. -/
def submitsAfterAuthoring : List String → List String → List String → List NbStmt → Bool
  | _, _, _, [] => true
  | strs, progs, circs, s :: rest =>
    match s with
    | .assignStr v _ => submitsAfterAuthoring (v :: strs) progs circs rest
    | .assignOpenQASM v sv =>
      strs.contains sv && submitsAfterAuthoring strs (v :: progs) circs rest
    | .assignCircuit v => submitsAfterAuthoring strs progs (v :: circs) rest
    | .run _ _ p _ =>
      (match p with
       | .qasmSource sv => strs.contains sv
       | .programVar pv => progs.contains pv
       | .circuitVar cv => circs.contains cv) &&
        submitsAfterAuthoring strs progs circs rest
    | _ => submitsAfterAuthoring strs progs circs rest

/-- All variables holding values derived from a fetched result payload
(the fetch itself, or a field projection of a derived variable). -/
def resultDerivedVars : List NbStmt → List String → List String
  | [], acc => acc
  | .assignResult v _ :: rest, acc => resultDerivedVars rest (v :: acc)
  | .assignResultField v _ _ :: rest, acc => resultDerivedVars rest (v :: acc)
  | .assignField v src _ :: rest, acc =>
    resultDerivedVars rest (if acc.contains src then v :: acc else acc)
  | _ :: rest, acc => resultDerivedVars rest acc

/-- No print or display references a result-derived value before the result
payload it derives from has been fetched.  `allDerived` is the set of
variables that are ever result-derived; `derived` those derived so far. -/
def printsAfterFetch (allDerived : List String) : List String → List NbStmt → Bool
  | _, [] => true
  | derived, s :: rest =>
    match s with
    | .assignResult v _ => printsAfterFetch allDerived (v :: derived) rest
    | .assignResultField v _ _ => printsAfterFetch allDerived (v :: derived) rest
    | .assignField v src _ =>
      printsAfterFetch allDerived (if derived.contains src then v :: derived else derived) rest
    | .printRef vs =>
      (vs.all fun v => !allDerived.contains v || derived.contains v) &&
        printsAfterFetch allDerived derived rest
    | .exprDisplay vs =>
      (vs.all fun v => !allDerived.contains v || derived.contains v) &&
        printsAfterFetch allDerived derived rest
    | _ => printsAfterFetch allDerived derived rest

/-- Number of tasks outstanding after the first `k` statements: submitted by a
`run` among the first `k` statements and with no result fetch among them. -/
def outstandingAt (l : List NbStmt) (k : Nat) : Nat :=
  (((l.take k).filterMap NbStmt.runTask).filter fun tv =>
    !((l.take k).filterMap NbStmt.fetchedTask).contains tv).length

/-- Maximum number of simultaneously outstanding tasks over the whole
statement list. -/
def maxOutstanding (l : List NbStmt) : Nat :=
  ((List.range (l.length + 1)).map (outstandingAt l)).foldr max 0

/-! ## Theorems for the claims -/

/-- Claim C1, counterexample: the claim that *every* `device.run(...)` call of
the notebook passes an OpenQASM program text wrapped as an `OpenQASMProgram`
fails at the submission `noisy_ghz3_circ_task = dm1.run(noisy_ghz3_circ,
shots = 10)` (cell `138d5edd`), whose payload is the SDK `Circuit` object
`noisy_ghz3_circ`, not an `OpenQASMProgram`. -/
theorem C1_counterexample_sdk_circuit_run :
    (NbStmt.run "noisy_ghz3_circ_task" "dm1" (.circuitVar "noisy_ghz3_circ") (some 10))
        ∈ notebook ∧
      isOpenQASMPayload notebook (.circuitVar "noisy_ghz3_circ") = false := by
  constructor
  · decide
  · rfl

/-- Claim C1, amended: every `device.run(...)` call of the notebook supplies
an explicit `shots` argument, and every such call except the one binding
`noisy_ghz3_circ_task` (which submits the SDK `Circuit` object
`noisy_ghz3_circ` for comparison) has as payload an OpenQASM program text
wrapped as an `OpenQASMProgram`. -/
theorem C1_amended_runs_have_shots_and_openqasm_payloads :
    notebook.all (fun s =>
      match s with
      | .run _ _ p shots =>
        shots.isSome &&
          (isOpenQASMPayload notebook p ||
            (match p with
             | .circuitVar v => v = "noisy_ghz3_circ"
             | _ => false))
      | _ => true) = true := by
  decide

/-- Claim C2: the notebook's statements respect the author-submit-fetch-display
pipeline order.  Scanning the flattened statement list left to right: every
referenced variable was bound earlier (`defBeforeUse`); every `run` submission
comes after its payload was authored — inline OpenQASM sources after the
string-literal definition of the text, program variables after their
`OpenQASMProgram` construction, circuit variables after the circuit
construction (`submitsAfterAuthoring`); every `result()` fetch comes after the
`run` that created its task (`fetchesAfterRun`); and no print or display
references a result-derived value before the corresponding fetch
(`printsAfterFetch`). -/
theorem C2_pipeline_order :
    defBeforeUse notebook = true ∧
      submitsAfterAuthoring [] [] [] notebook = true ∧
      fetchesAfterRun [] notebook = true ∧
      printsAfterFetch (resultDerivedVars notebook []) [] notebook = true := by
  refine ⟨by decide, by decide, by decide, by decide⟩

/-- Claim C3: program texts are opaque payloads.  Every variable is bound by
at most one statement (so no program text is ever reassigned); the only file
write of the notebook writes the variable `bell_qasm` — which resolves to the
exact `bell_qasm` string literal — to `bell.qasm`; every `OpenQASMProgram`
construction of the notebook resolves its source to exactly one of the
unmodified defined string literals; and every statement referencing a
program-text variable is one of the pass-through forms (definition,
`OpenQASMProgram` construction, run submission, file write). -/
theorem C3_program_texts_are_opaque :
    (notebook.filterMap NbStmt.boundVar).Nodup ∧
      fileWrites notebook = [("bell.qasm", "bell_qasm")] ∧
      textOf notebook "bell_qasm" = some bell_qasm ∧
      openQASMSources notebook =
        [some bell_qasm, some noisy_ghz3_program, some program_with_unitary,
         some ghz_program_with_physical_qubits, some program_with_verbatim_box,
         some bell_with_result_type] ∧
      notebook.all (opaqueTextUse (textVars notebook)) = true := by
  refine ⟨by decide, by decide, by decide, by decide, by decide⟩

/-- Claim C4: the notebook performs no validation of program payloads and
contains no exception-handling constructs — no statement of the flattened
notebook is a `try`/`except` block, a `raise`, an `if` branch, or an
`assert`; in particular no statement branches on the contents of a program
payload, so any error raised by the external client propagates unhandled. -/
theorem C4_no_validation_no_exception_handling :
    notebook.all (fun s => !(s.isErrorHandling || s.isValidation)) = true := by
  decide

/-- Claim C5, counterexample: the claim that the notebook performs no
externally visible side effect beyond the three listed interfaces fails at
the file write `f.write(bell_qasm)` into `bell.qasm` (cell `1cc596be`),
which is an externally visible side effect on the local filesystem and none
of the three interfaces. -/
theorem C5_counterexample_file_write :
    (NbStmt.fileWrite "bell.qasm" "bell_qasm") ∈ notebook ∧
      NbStmt.isExternalSideEffect (.fileWrite "bell.qasm" "bell_qasm") = true ∧
      NbStmt.isListedInterface (.fileWrite "bell.qasm" "bell_qasm") = false := by
  refine ⟨by decide, rfl, rfl⟩

/-- Claim C5, amended: every externally visible side effect of the notebook is
either a usage of one of the three listed interfaces or the single write of
the unmodified program text `bell_qasm` to the local file `bell.qasm` made to
demonstrate the external AWS CLI. -/
theorem C5_amended_effects_limited :
    notebook.all (fun s =>
      !s.isExternalSideEffect || s.isListedInterface ||
        (match s with
         | .fileWrite fn sv => fn = "bell.qasm" && sv = "bell_qasm"
         | _ => false)) = true := by
  decide

/-- Claim C6: each of the five vendor-extension feature categories is
demonstrated by a vendor-specific directive inside a program string defined
by the notebook — a `braket noise` pragma in `noisy_ghz3_program`, a
`braket unitary` pragma in `program_with_unitary`, physical-qubit notation
(`$0`) in `ghz_program_with_physical_qubits`, a `braket verbatim` pragma in
`program_with_verbatim_box`, and a `braket result` pragma in
`bell_with_result_type`. -/
theorem C6_vendor_extension_features_demonstrated :
    ((NbStmt.assignStr "noisy_ghz3_program" noisy_ghz3_program) ∈ notebook ∧
        containsSub noisy_ghz3_program "#pragma braket noise" = true) ∧
      ((NbStmt.assignStr "program_with_unitary" program_with_unitary) ∈ notebook ∧
        containsSub program_with_unitary "#pragma braket unitary" = true) ∧
      ((NbStmt.assignStr "ghz_program_with_physical_qubits"
            ghz_program_with_physical_qubits) ∈ notebook ∧
        containsSub ghz_program_with_physical_qubits "$0" = true) ∧
      ((NbStmt.assignStr "program_with_verbatim_box" program_with_verbatim_box) ∈ notebook ∧
        containsSub program_with_verbatim_box "#pragma braket verbatim" = true) ∧
      ((NbStmt.assignStr "bell_with_result_type" bell_with_result_type) ∈ notebook ∧
        containsSub bell_with_result_type "#pragma braket result" = true) := by
  refine ⟨⟨by decide, by decide⟩, ⟨by decide, by decide⟩, ⟨by decide, by decide⟩,
    ⟨by decide, by decide⟩, ⟨by decide, by decide⟩⟩

/-- Claim C7, counterexample: the claim that at most one task is outstanding
at any time fails right after the 25th statement of the flattened notebook
(the submission `noisy_ghz3_program_task = dm1.run(...)` in cell `138d5edd`):
at that point three tasks have been submitted and not yet fetched —
`bell_task` (whose result is never fetched at all), `noisy_ghz3_circ_task`
and `noisy_ghz3_program_task`. -/
theorem C7_counterexample_three_outstanding_tasks :
    outstandingAt notebook 25 = 3 ∧ ¬ outstandingAt notebook 25 ≤ 1 := by
  refine ⟨by decide, by decide⟩

/-- Claim C7, amended: the notebook's statements are a straight-line sequence
of blocking calls with no thread, coroutine, or lock construct of its own,
but up to three tasks are outstanding at once: `bell_task`'s result is never
fetched, and the two noisy-GHZ tasks are both submitted before either result
is fetched. -/
theorem C7_amended_sequential_but_three_outstanding :
    notebook.all (fun s => !s.isConcurrencyConstruct) = true ∧
      maxOutstanding notebook = 3 := by
  refine ⟨by decide, by decide⟩

/-- Claim C8: the notebook is declarative straight-line code — it contains no
class definition and no coroutine definition, and every variable is bound by
exactly one statement (single-assignment, so no notebook-owned mutable global
state; all values are string literals or opaque external handles, so no
cyclic structure can be built). -/
theorem C8_no_classes_no_coroutines_single_assignment :
    notebook.all (fun s => !(s.isClassDef || s.isCoroutine)) = true ∧
      (notebook.filterMap NbStmt.boundVar).Nodup := by
  refine ⟨by decide, by decide⟩

/-- Claim C9: the Kraus-operator example payload is internally inconsistent —
the program text `noisy_program_with_kraus_operators` (defined by the
notebook) declares a single qubit register of size 2 (`qubit[2] q`) while its
register references are `q[0]`, `q[0]`, `q[1]`, `q[2]` (the last from
`cnot q[1], q[2]`), and the referenced index 2 is not below the declared
size 2. -/
theorem C9_kraus_program_out_of_bounds_qubit :
    (NbStmt.assignStr "noisy_program_with_kraus_operators"
        noisy_program_with_kraus_operators) ∈ notebook ∧
      qubitDeclSizes noisy_program_with_kraus_operators.toList = [2] ∧
      qubitRefs noisy_program_with_kraus_operators.toList = [0, 0, 1, 2] ∧
      ∃ i ∈ qubitRefs noisy_program_with_kraus_operators.toList,
        ∀ n ∈ qubitDeclSizes noisy_program_with_kraus_operators.toList, n ≤ i := by
  refine ⟨by decide, by decide, by decide, by decide⟩

/-- Claim C10: the OpenQASM text `noisy_ghz3_program` and the SDK circuit
`noisy_ghz3_circ` do *not* denote the same instruction sequence, although the
notebook's narrative asserts they are equivalent.  The text's instruction
sequence puts the two depolarizing channels following `cnot q[1], q[2]` on
qubits 0 and 1, while the SDK circuit (as recorded in the executed output of
cell `2755f581`) puts them on qubits 1 and 2; the first six instructions
agree. -/
theorem C10_noisy_ghz3_program_differs_from_sdk_circuit :
    parseNoisyInstrs noisy_ghz3_program.toList =
      [.gateH 0,
       .noiseDepolarizing 0 1 0,
       .gateCNot 0 1,
       .noiseDepolarizing 0 1 0,
       .noiseDepolarizing 0 1 1,
       .gateCNot 1 2,
       .noiseDepolarizing 0 1 0,
       .noiseDepolarizing 0 1 1] ∧
      parseNoisyInstrs noisy_ghz3_program.toList ≠ noisy_ghz3_circ_instructions ∧
      (parseNoisyInstrs noisy_ghz3_program.toList).take 6 =
        noisy_ghz3_circ_instructions.take 6 := by
  refine ⟨by decide, by decide, by decide⟩

end OpenQASMNotebook
